import Mathlib

/-!
Shallow embedding of the asynchronous payment-confirmation state machine of
the Anagha hospital front-desk frontend (`src/pages/BookAppointment.tsx`,
payments API in `src/App.tsx`).

The React component state relevant to payment reconciliation is modelled as
an explicit record `CompState`; the browser `localStorage` slot under the key
`pending_payment_state` is the `store` field; `setInterval` timers are
modelled by an environment list of live timer ids plus the component ref
`verificationPollIntervalRef`.  Network effects are made explicit: every
function that can issue the backend status query returns the list of
`paymentId` keys it queried, and the backend answer for a query is passed in
as an `Except String String` value (`.error` models a thrown request,
`.ok s` models a response body whose `status` field is the string `s`).
-/

namespace AnaghaPayments

/-- The transient UI payment status from `BookAppointment.tsx` line 73:
`"idle" | "pending" | "verifying" | "success" | "failed"`. -/
inductive PaymentStatus where
  | idle
  | pending
  | verifying
  | success
  | failed
deriving DecidableEq, Repr

/-- `type BookingType = "appointment" | "operation"` (line 14). -/
inductive BookingType where
  | appointment
  | operation
deriving DecidableEq, Repr

/-- The persisted reconciliation record, `interface PendingPaymentState`
(lines 45–51).  Timestamps are milliseconds since the epoch, as `Int`. -/
structure PendingPaymentState where
  bookingId : Int
  bookingType : BookingType
  paymentId : Int
  paymentSessionId : String
  timestamp : Int
deriving DecidableEq, Repr

/-- The raw content of the `localStorage` slot: the stored string either
parses as a `PendingPaymentState` (`valid`) or `JSON.parse` throws
(`malformed`). -/
inductive StoredValue where
  | malformed
  | valid (p : PendingPaymentState)
deriving DecidableEq, Repr

/-- Component plus browser-environment state.
`store` is the `localStorage` slot under `PAYMENT_STATE_KEY` (`none` means
the key is absent); `paymentState`, `paymentStatus`, `verificationError` are
the React state hooks; `timerRef` is `verificationPollIntervalRef.current`;
`activeTimers` is the set of live `setInterval` handles owned by the
environment, and `nextTimerId` supplies fresh handles. -/
structure CompState where
  store : Option StoredValue
  paymentState : Option PendingPaymentState
  paymentStatus : PaymentStatus
  verificationError : Option String
  timerRef : Option Nat
  activeTimers : List Nat
  nextTimerId : Nat
deriving DecidableEq, Repr

/-- `clearPaymentState` (lines 221–228): remove the `localStorage` record,
null the React record, and cancel plus null the polling interval. -/
def clearPaymentState (s : CompState) : CompState :=
  let s1 := { s with store := (none : Option StoredValue),
                     paymentState := (none : Option PendingPaymentState) }
  match s1.timerRef with
  | some t => { s1 with activeTimers := s1.activeTimers.erase t, timerRef := none }
  | none => s1

/-- `verifyPaymentStatus` (lines 133–180).  `resp` is the outcome of
`paymentsAPI.getPaymentStatus paymentId`: `.ok status` carries the `status`
string of the response, `.error msg` models the request throwing.  Returns
the new state, the boolean the function returns, and the list of `paymentId`
keys for which a status query was issued (always exactly one). -/
def verifyPaymentStatus (paymentId : Int) (resp : Except String String)
    (s : CompState) : CompState × Bool × List Int :=
  let s0 := { s with paymentStatus := PaymentStatus.verifying,
                     verificationError := (none : Option String) }
  match resp with
  | Except.ok status =>
      if status = "COMPLETED" then
        (clearPaymentState { s0 with paymentStatus := PaymentStatus.success },
         true, [paymentId])
      else if status = "FAILED" then
        (clearPaymentState
          { s0 with paymentStatus := PaymentStatus.failed,
                    verificationError := some "Payment failed. Please try again." },
         false, [paymentId])
      else
        ({ s0 with paymentStatus := PaymentStatus.pending }, false, [paymentId])
  | Except.error msg =>
      ({ s0 with verificationError := some msg,
                 paymentStatus := PaymentStatus.failed }, false, [paymentId])

/-- The 24-hour staleness bound in milliseconds (line 112). -/
def STALE_LIMIT_MS : Int := 24 * 60 * 60 * 1000

/-- Lines 119–120 of `checkPendingPayment`: publish the resumed record and
move the UI status to `verifying` before the status query is issued. -/
def resumePending (p : PendingPaymentState) (s : CompState) : CompState :=
  { s with paymentState := some p, paymentStatus := PaymentStatus.verifying }

/-- `checkPendingPayment` (lines 103–127), the on-mount resume check.
`now` is `Date.now()`.  Returns the new state and the list of `paymentId`
keys queried.  A `malformed` stored value makes `JSON.parse` throw, landing
in the `catch` branch which removes the invalid record. -/
def checkPendingPayment (now : Int) (resp : Except String String)
    (s : CompState) : CompState × List Int :=
  match s.store with
  | none => (s, [])
  | some StoredValue.malformed => ({ s with store := none }, [])
  | some (StoredValue.valid p) =>
      if now - p.timestamp > STALE_LIMIT_MS then
        ({ s with store := none }, [])
      else
        let r := verifyPaymentStatus p.paymentId resp (resumePending p s)
        (r.1, r.2.2)

/-- `startPaymentVerification` lines 183–192: cancel any existing interval,
then register a fresh one and record its handle in the ref. -/
def startPaymentVerification (s : CompState) : CompState :=
  let s1 := match s.timerRef with
    | some t => { s with activeTimers := s.activeTimers.erase t }
    | none => s
  { s1 with activeTimers := s1.activeTimers ++ [s1.nextTimerId],
            timerRef := some s1.nextTimerId,
            nextTimerId := s1.nextTimerId + 1 }

/-- The unmount cleanup effect (lines 231–237): cancel the interval if the
ref holds one.  It touches neither `localStorage` nor the React state. -/
def unmountCleanup (s : CompState) : CompState :=
  match s.timerRef with
  | some t => { s with activeTimers := s.activeTimers.erase t }
  | none => s

/-- At most one live interval, and the ref tracks it exactly: the shape the
component maintains for `verificationPollIntervalRef`. -/
def timerInvariant (s : CompState) : Prop :=
  match s.timerRef with
  | some t => s.activeTimers = [t]
  | none => s.activeTimers = []

instance (s : CompState) : Decidable (timerInvariant s) := by
  unfold timerInvariant
  cases s.timerRef <;> exact inferInstanceAs (Decidable _)

/-! ### The polling loop

`startPaymentVerification` (lines 183–219) registers an interval firing
every 10 seconds.  The closure variable `pollCount` and the network trace
are carried in `PollLoop`; `elapsedMs` records when the last tick fired
(each tick fires `POLL_INTERVAL_MS` after the previous one).  The body of
one interval tick is `pollTick`; `runPolling` fires up to `n` ticks,
stopping as soon as the interval has been cancelled (a cancelled interval
fires no further ticks). -/

/-- `setInterval(..., 10000)`: the polling period in milliseconds. -/
def POLL_INTERVAL_MS : Nat := 10000

/-- `const maxPolls = 30` (line 190). -/
def MAX_POLLS : Nat := 30

/-- The timeout message set when polling exhausts its attempts (line 205). -/
def TIMEOUT_MSG : String :=
  "Payment verification timed out. Please check your booking status manually."

/-- State of one polling loop: the component state, the `pollCount` closure
variable, the `paymentId` keys queried so far (in order), and the time in
milliseconds at which the most recent tick fired. -/
structure PollLoop where
  comp : CompState
  pollCount : Nat
  polls : List Int
  elapsedMs : Nat
deriving DecidableEq, Repr

/-- Direct `clearInterval` on the ref (the tick body, lines 195–200 and
212–216): cancel the interval and null the ref.  Distinct from
`clearPaymentState`, which also wipes the persisted record. -/
def stopInterval (s : CompState) : CompState :=
  match s.timerRef with
  | some t => { s with activeTimers := s.activeTimers.erase t, timerRef := none }
  | none => s

/-- One firing of the interval callback (lines 192–218).  `resp` is the
backend answer to the status query this tick issues.  On reaching
`maxPolls` the interval is cancelled first, then one final verification
attempt is made and, if it did not verify, the timeout message is set.
Otherwise the tick polls once and cancels the interval only on a verified
(`COMPLETED`) outcome; note that `verifyPaymentStatus` itself already
cancels the interval through `clearPaymentState` on both terminal
statuses. -/
def pollTick (paymentId : Int) (resp : Except String String)
    (l : PollLoop) : PollLoop :=
  let pc := l.pollCount + 1
  let onTime := l.elapsedMs + POLL_INTERVAL_MS
  if pc ≥ MAX_POLLS then
    let s1 := stopInterval l.comp
    let r := verifyPaymentStatus paymentId resp s1
    let s2 := if r.2.1 then r.1
              else { r.1 with verificationError := some TIMEOUT_MSG }
    { comp := s2, pollCount := pc, polls := l.polls ++ r.2.2, elapsedMs := onTime }
  else
    let r := verifyPaymentStatus paymentId resp l.comp
    let s2 := if r.2.1 then stopInterval r.1 else r.1
    { comp := s2, pollCount := pc, polls := l.polls ++ r.2.2, elapsedMs := onTime }

/-- Fire up to `n` interval ticks.  `backend k` is the answer to the query
issued by the tick that runs with `pollCount = k` before its increment.
A tick fires only while the interval is registered (`timerRef ≠ none`). -/
def runPolling (paymentId : Int) (backend : Nat → Except String String) :
    Nat → PollLoop → PollLoop
  | 0, l => l
  | n + 1, l =>
      if l.comp.timerRef = none then l
      else runPolling paymentId backend n (pollTick paymentId (backend l.pollCount) l)

/-- A backend that always answers `{status: "PENDING"}`. -/
def alwaysPending : Nat → Except String String := fun _ => Except.ok "PENDING"

/-! ### The submit flow and the catalog lookup -/

/-- One catalog row as used by the lookup: hospitals and doctors both carry
a numeric `id` and a display `name`. -/
structure CatalogEntry where
  id : Int
  name : String
deriving DecidableEq, Repr

/-- The selection lookup of `handleSubmit` (lines 319–320): a single
`Array.prototype.find` pass whose predicate accepts an entry when the form
value equals its `name` or its `id.toString()`. -/
def findSelection (entries : List CatalogEntry) (v : String) : Option CatalogEntry :=
  entries.find? (fun h => h.name == v || toString h.id == v)

/-- Modelled from the spec: resolve a selection "by matching against `id`
first, falling back to exact name match" — one full pass over the catalog by
id, then a second pass by name.  Stated only to compare with the
source-derived `findSelection`. -/
def findByIdFirst (entries : List CatalogEntry) (v : String) : Option CatalogEntry :=
  match entries.find? (fun h => toString h.id == v) with
  | some h => some h
  | none => entries.find? (fun h => h.name == v)

/-- The selection error thrown at line 323. -/
def SELECTION_ERROR : String := "Please select valid hospital and doctor"

/-- Lines 319–324: resolve both selections, throwing `SELECTION_ERROR` when
either lookup finds no entry. -/
def resolveSelections (hospitals doctors : List CatalogEntry)
    (hv dv : String) : Except String (CatalogEntry × CatalogEntry) :=
  match findSelection hospitals hv, findSelection doctors dv with
  | some h, some d => Except.ok (h, d)
  | _, _ => Except.error SELECTION_ERROR

/-- The outcome of the environment during the post-validation part of
`handleSubmit` (lines 318–417): which step, if any, threw.
`orderMissingSession` models an order response without
`payment_session_id` (line 359); `checkoutFailed` models the inner `catch`
around the Cashfree launch, which fires after the pending record has been
persisted; `launched` is the fully successful path. -/
inductive SubmitOutcome where
  | bookingFailed
  | orderFailed
  | orderMissingSession (bookingId : Int)
  | checkoutFailed (bookingId paymentId : Int) (sessionId : String) (msg : String)
  | launched (bookingId paymentId : Int) (sessionId : String)
deriving DecidableEq, Repr

/-- `handleSubmit` after form validation and the authentication check
(lines 289–417), as a function of the environment outcome.  `now` is
`Date.now()` at the moment the pending record is built.  Booking-creation
failures, a missing session id, and order-creation failures all land in the
outer `catch` (status `failed`, then `clearPaymentState`); a checkout-launch
failure lands in the inner `catch` after the record was persisted; the
successful path persists the record, sets status `pending` and starts the
polling interval. -/
def handleSubmitCore (bt : BookingType) (o : SubmitOutcome) (now : Int)
    (s0 : CompState) : CompState :=
  let s := { s0 with verificationError := (none : Option String) }
  match o with
  | SubmitOutcome.bookingFailed =>
      clearPaymentState { s with paymentStatus := PaymentStatus.failed }
  | SubmitOutcome.orderFailed =>
      clearPaymentState { s with paymentStatus := PaymentStatus.failed }
  | SubmitOutcome.orderMissingSession _ =>
      clearPaymentState { s with paymentStatus := PaymentStatus.failed }
  | SubmitOutcome.checkoutFailed bid pid sess msg =>
      let p : PendingPaymentState :=
        { bookingId := bid, bookingType := bt, paymentId := pid,
          paymentSessionId := sess, timestamp := now }
      let s1 := { s with paymentState := some p, store := some (StoredValue.valid p) }
      clearPaymentState { s1 with paymentStatus := PaymentStatus.failed,
                                  verificationError := some msg }
  | SubmitOutcome.launched bid pid sess =>
      let p : PendingPaymentState :=
        { bookingId := bid, bookingType := bt, paymentId := pid,
          paymentSessionId := sess, timestamp := now }
      let s1 := { s with paymentState := some p, store := some (StoredValue.valid p) }
      startPaymentVerification { s1 with paymentStatus := PaymentStatus.pending }

/-- The `disabled` prop of the submit button (line 759):
`isSubmitting || paymentStatus === "verifying" || paymentStatus === "success"`. -/
def submitDisabled (isSubmitting : Bool) (st : PaymentStatus) : Bool :=
  isSubmitting || st == PaymentStatus.verifying || st == PaymentStatus.success

/-- The request path of `paymentsAPI.getPaymentStatus` (`src/App.tsx` lines
463–466): the status query is keyed by the numeric `paymentId` alone. -/
def getPaymentStatusPath (paymentId : Int) : String :=
  "/api/payments/" ++ toString paymentId ++ "/status"

/-! ### Sample values used by witnesses and counterexamples -/

/-- A fresh component state: empty store, idle status, no timer. -/
def baseState : CompState :=
  { store := none, paymentState := none, paymentStatus := PaymentStatus.idle,
    verificationError := none, timerRef := none, activeTimers := [],
    nextTimerId := 0 }

/-- The Scenario A record of the spec: booking 101, payment 555. -/
def sampleRecord : PendingPaymentState :=
  { bookingId := 101, bookingType := BookingType.appointment, paymentId := 555,
    paymentSessionId := "sess_abc", timestamp := 1000 }

/-- A mounted component whose store holds the parsed sample record. -/
def storedState : CompState :=
  { baseState with store := some (StoredValue.valid sampleRecord) }

/-- A mounted component whose store holds an unparseable record. -/
def malformedState : CompState :=
  { baseState with store := some StoredValue.malformed }

/-- A component mid-reconciliation: a persisted record, a pending status and
a registered polling interval. -/
def busyState : CompState :=
  startPaymentVerification
    { baseState with store := some (StoredValue.valid sampleRecord),
                     paymentState := some sampleRecord,
                     paymentStatus := PaymentStatus.pending }

/-- The poll loop right after `startPaymentVerification` registered its
interval on a fresh component. -/
def startLoopSample : PollLoop :=
  { comp := startPaymentVerification baseState, pollCount := 0, polls := [],
    elapsedMs := 0 }

/-- The outer-catch outcome of a failed submit: status `failed` and a fully
cleared reconciliation state (no stored record, no React record, no
timer). -/
def failedAndCleared (r : CompState) : Prop :=
  r.store = none ∧ r.paymentState = none ∧
  r.paymentStatus = PaymentStatus.failed ∧
  r.timerRef = none ∧ r.activeTimers = []

end AnaghaPayments

namespace AnaghaPayments

/-! ## Helper lemmas -/

/-- A cancelled interval fires no further ticks: `runPolling` is the
identity once the ref holds no interval. -/
theorem runPolling_stopped (pid : Int) (b : Nat → Except String String)
    (n : Nat) (l : PollLoop) (h : l.comp.timerRef = none) :
    runPolling pid b n l = l := by
  cases n with
  | zero => rfl
  | succ m => unfold runPolling; rw [if_pos h]

/-- Every call of `verifyPaymentStatus` issues exactly one status query,
keyed by the `paymentId` it was given. -/
theorem verifyPaymentStatus_queries (pid : Int) (resp : Except String String)
    (s : CompState) : (verifyPaymentStatus pid resp s).2.2 = [pid] := by
  unfold verifyPaymentStatus
  cases resp with
  | ok status => dsimp only; split_ifs <;> rfl
  | error msg => rfl

/-- A catalog lookup succeeds exactly when some entry matches the form value
by exact name or by id rendered as a string. -/
theorem findSelection_isSome_iff (es : List CatalogEntry) (v : String) :
    (findSelection es v).isSome ↔
      ∃ h ∈ es, h.name = v ∨ toString h.id = v := by
  unfold findSelection
  rw [List.find?_isSome]
  simp

/-- Exhaustive run of the polling loop against a backend that always
answers `PENDING`: starting with `n` attempts left out of `MAX_POLLS` and a
registered interval, the loop issues one poll per 10-second tick, and on the
final tick cancels the interval, makes its last verification attempt and
sets the timeout message — leaving the status at `pending`, since
`verifyPaymentStatus` maps a `PENDING` answer to the `pending` status. -/
theorem runPolling_alwaysPending (pid : Int) (t : Nat) :
    ∀ (n : Nat) (l : PollLoop), 1 ≤ n → l.pollCount + n = MAX_POLLS →
      l.comp.timerRef = some t → l.comp.activeTimers = [t] →
      runPolling pid alwaysPending n l =
        { comp := { l.comp with paymentStatus := PaymentStatus.pending,
                                verificationError := some TIMEOUT_MSG,
                                timerRef := none, activeTimers := [] },
          pollCount := MAX_POLLS,
          polls := l.polls ++ List.replicate n pid,
          elapsedMs := l.elapsedMs + n * POLL_INTERVAL_MS } := by
  intro n
  induction n with
  | zero => intro l h1 _ _ _; exact absurd h1 (by omega)
  | succ m ih =>
    rintro ⟨⟨st, ps, stat, ve, tr, act, nid⟩, pc, polls, el⟩ h1 h2 h3 h4
    dsimp only at h2 h3 h4 ⊢
    subst h3
    subst h4
    simp only [MAX_POLLS] at h2
    by_cases hm : m = 0
    · subst hm
      have hpc : pc = 29 := by omega
      subst hpc
      unfold runPolling pollTick stopInterval verifyPaymentStatus alwaysPending
      simp [MAX_POLLS, POLL_INTERVAL_MS, TIMEOUT_MSG]
      rfl
    · have hm1 : 1 ≤ m := Nat.one_le_iff_ne_zero.mpr hm
      have hc : ¬ (pc + 1 ≥ MAX_POLLS) := by simp only [MAX_POLLS]; omega
      unfold runPolling
      rw [if_neg (by simp)]
      have htick :
          pollTick pid (alwaysPending pc)
            ⟨⟨st, ps, stat, ve, some t, [t], nid⟩, pc, polls, el⟩ =
          ⟨⟨st, ps, PaymentStatus.pending, none, some t, [t], nid⟩, pc + 1,
            polls ++ [pid], el + POLL_INTERVAL_MS⟩ := by
        unfold pollTick verifyPaymentStatus alwaysPending
        simp [hc]
      rw [htick]
      rw [ih ⟨⟨st, ps, PaymentStatus.pending, none, some t, [t], nid⟩, pc + 1,
            polls ++ [pid], el + POLL_INTERVAL_MS⟩ hm1
            (by dsimp only; simp only [MAX_POLLS]; omega) rfl rfl]
      simp [List.replicate_succ, POLL_INTERVAL_MS]
      omega

/-! ## C1 -/

/-- C1, counterexample: with no submission in flight, the submit button is
NOT disabled in the `pending` payment status, refuting the claim that the
control is disabled for every status in {pending, verifying}. -/
theorem c1_pending_not_disabled :
    submitDisabled false PaymentStatus.pending = false ∧
    ¬ (∀ (b : Bool) (st : PaymentStatus),
        (st = PaymentStatus.pending ∨ st = PaymentStatus.verifying) →
        submitDisabled b st = true) := by
  constructor
  · rfl
  · intro h
    exact absurd (h false PaymentStatus.pending (Or.inl rfl)) (by decide)

/-- C1, amended: the submit control is disabled exactly while a submission
is in flight or the payment status is `verifying` or `success`; in the
`pending` status with no submission in flight it is enabled. -/
theorem c1_submit_disabled_iff (b : Bool) (st : PaymentStatus) :
    submitDisabled b st = true ↔
      (b = true ∨ st = PaymentStatus.verifying ∨ st = PaymentStatus.success) := by
  cases b <;> cases st <;> simp [submitDisabled]

/-! ## C2 -/

/-- C2, counterexample: with a backend that always answers `PENDING`, the
loop issues exactly 30 polls and then stops (45 available ticks still yield
30 polls) and sets the timeout message, but the payment status is left at
`pending` — it does NOT transition to `failed` as claimed. -/
theorem c2_timeout_leaves_pending :
    (runPolling 555 alwaysPending 30 startLoopSample).polls.length = 30 ∧
    (runPolling 555 alwaysPending 45 startLoopSample).polls.length = 30 ∧
    (runPolling 555 alwaysPending 30 startLoopSample).comp.verificationError =
      some TIMEOUT_MSG ∧
    (runPolling 555 alwaysPending 30 startLoopSample).comp.timerRef = none ∧
    (runPolling 555 alwaysPending 30 startLoopSample).comp.paymentStatus =
      PaymentStatus.pending ∧
    (runPolling 555 alwaysPending 30 startLoopSample).comp.paymentStatus ≠
      PaymentStatus.failed := by
  refine ⟨by decide, by decide, by decide, by decide, by decide, by decide⟩

/-- C2, amended: with a backend that always answers `PENDING`, the loop
started by `startPaymentVerification` issues exactly `MAX_POLLS` = 30 status
polls, one per 10-second tick (300 seconds in total), then cancels the
interval and sets the timed-out verification message; no further ticks
issue any poll.  The payment status is left at `pending`, not `failed`. -/
theorem c2_bounded_polling (pid : Int) (t : Nat) (s : CompState)
    (h1 : s.timerRef = some t) (h2 : s.activeTimers = [t]) :
    (runPolling pid alwaysPending MAX_POLLS
        { comp := s, pollCount := 0, polls := [], elapsedMs := 0 }).polls =
      List.replicate MAX_POLLS pid ∧
    (runPolling pid alwaysPending MAX_POLLS
        { comp := s, pollCount := 0, polls := [], elapsedMs := 0 }).elapsedMs =
      MAX_POLLS * POLL_INTERVAL_MS ∧
    (runPolling pid alwaysPending MAX_POLLS
        { comp := s, pollCount := 0, polls := [], elapsedMs := 0 }).comp.timerRef
      = none ∧
    (runPolling pid alwaysPending MAX_POLLS
        { comp := s, pollCount := 0, polls := [], elapsedMs := 0 }).comp.activeTimers
      = [] ∧
    (runPolling pid alwaysPending MAX_POLLS
        { comp := s, pollCount := 0, polls := [], elapsedMs := 0 }).comp.verificationError
      = some TIMEOUT_MSG ∧
    (runPolling pid alwaysPending MAX_POLLS
        { comp := s, pollCount := 0, polls := [], elapsedMs := 0 }).comp.paymentStatus
      = PaymentStatus.pending ∧
    ∀ k : Nat,
      runPolling pid alwaysPending k
        (runPolling pid alwaysPending MAX_POLLS
          { comp := s, pollCount := 0, polls := [], elapsedMs := 0 }) =
      runPolling pid alwaysPending MAX_POLLS
        { comp := s, pollCount := 0, polls := [], elapsedMs := 0 } := by
  have h := runPolling_alwaysPending pid t MAX_POLLS
    ⟨s, 0, [], 0⟩ (by simp [MAX_POLLS]) (by simp) h1 h2
  rw [h]
  refine ⟨by simp, by simp, rfl, rfl, rfl, rfl, ?_⟩
  intro k
  exact runPolling_stopped pid alwaysPending k _ rfl

/-- C2, witness on a freshly registered interval. -/
theorem c2_bounded_polling_witness :
    (startPaymentVerification baseState).timerRef = some 0 ∧
    (startPaymentVerification baseState).activeTimers = [0] ∧
    ((runPolling 555 alwaysPending MAX_POLLS startLoopSample).polls =
        List.replicate MAX_POLLS 555 ∧
     (runPolling 555 alwaysPending MAX_POLLS startLoopSample).elapsedMs =
        MAX_POLLS * POLL_INTERVAL_MS ∧
     (runPolling 555 alwaysPending MAX_POLLS startLoopSample).comp.timerRef = none ∧
     (runPolling 555 alwaysPending MAX_POLLS startLoopSample).comp.activeTimers = [] ∧
     (runPolling 555 alwaysPending MAX_POLLS startLoopSample).comp.verificationError =
        some TIMEOUT_MSG ∧
     (runPolling 555 alwaysPending MAX_POLLS startLoopSample).comp.paymentStatus =
        PaymentStatus.pending ∧
     ∀ k : Nat,
       runPolling 555 alwaysPending k
         (runPolling 555 alwaysPending MAX_POLLS startLoopSample) =
       runPolling 555 alwaysPending MAX_POLLS startLoopSample) :=
  ⟨rfl, rfl,
   c2_bounded_polling 555 0 (startPaymentVerification baseState) rfl rfl⟩

/-! ## C3 -/

/-- C3, counterexample: on a catalog where the first entry's name equals the
second entry's id string, the code's single-pass name-or-id lookup returns
the first entry, while the spec's id-first rule returns the second — the
claimed id-priority does not hold. -/
theorem c3_no_id_priority :
    findSelection [{ id := 9, name := "5" }, { id := 5, name := "A" }] "5" =
      some { id := 9, name := "5" } ∧
    findByIdFirst [{ id := 9, name := "5" }, { id := 5, name := "A" }] "5" =
      some { id := 5, name := "A" } ∧
    ({ id := 9, name := "5" } : CatalogEntry) ≠ { id := 5, name := "A" } := by
  refine ⟨rfl, rfl, by decide⟩

/-- C3, amended: the selection succeeds exactly when some catalog entry
matches the form value by exact name or by id string (one pass, no
id-priority across entries), and resolving fails with the selection error
exactly when either lookup finds no match. -/
theorem c3_selection_lookup (hos docs : List CatalogEntry) (hv dv : String) :
    ((∃ h d, resolveSelections hos docs hv dv = Except.ok (h, d)) ↔
      ((∃ h ∈ hos, h.name = hv ∨ toString h.id = hv) ∧
       (∃ d ∈ docs, d.name = dv ∨ toString d.id = dv))) ∧
    ((resolveSelections hos docs hv dv = Except.error SELECTION_ERROR) ↔
      ¬ ((∃ h ∈ hos, h.name = hv ∨ toString h.id = hv) ∧
         (∃ d ∈ docs, d.name = dv ∨ toString d.id = dv))) := by
  rw [← findSelection_isSome_iff hos hv, ← findSelection_isSome_iff docs dv]
  unfold resolveSelections
  cases h1 : findSelection hos hv <;> cases h2 : findSelection docs dv <;>
    simp [h1, h2]

/-! ## C4 -/

/-- C4: a `COMPLETED` response transitions to `success` and leaves the
store empty; a `FAILED` response transitions to `failed` and leaves the
store empty; a thrown status query transitions to `failed` but keeps the
persisted record (and the React record) untouched, so manual retry remains
possible. -/
theorem c4_verify_outcomes (pid : Int) (msg : String) (s : CompState) :
    ((verifyPaymentStatus pid (Except.ok "COMPLETED") s).1.paymentStatus =
        PaymentStatus.success ∧
     (verifyPaymentStatus pid (Except.ok "COMPLETED") s).1.store = none) ∧
    ((verifyPaymentStatus pid (Except.ok "FAILED") s).1.paymentStatus =
        PaymentStatus.failed ∧
     (verifyPaymentStatus pid (Except.ok "FAILED") s).1.store = none) ∧
    ((verifyPaymentStatus pid (Except.error msg) s).1.store = s.store ∧
     (verifyPaymentStatus pid (Except.error msg) s).1.paymentState =
        s.paymentState ∧
     (verifyPaymentStatus pid (Except.error msg) s).1.paymentStatus =
        PaymentStatus.failed) := by
  unfold verifyPaymentStatus clearPaymentState
  cases h : s.timerRef <;> simp [h]

/-! ## C5 -/

/-- C5: a persisted record older than 24 hours is discarded unread on
mount — the store is emptied, no status query is issued, and the payment
status stays `idle`. -/
theorem c5_stale_discarded (p : PendingPaymentState) (now : Int)
    (resp : Except String String) (s : CompState)
    (h1 : s.store = some (StoredValue.valid p))
    (h2 : now - p.timestamp > STALE_LIMIT_MS)
    (h3 : s.paymentStatus = PaymentStatus.idle) :
    (checkPendingPayment now resp s).1.store = none ∧
    (checkPendingPayment now resp s).2 = [] ∧
    (checkPendingPayment now resp s).1.paymentStatus = PaymentStatus.idle := by
  unfold checkPendingPayment
  rw [h1]
  simp [if_pos h2, h3]

/-- C5, witness at a record 25 hours old. -/
theorem c5_stale_discarded_witness :
    (91000000 : Int) - sampleRecord.timestamp > STALE_LIMIT_MS ∧
    ((checkPendingPayment 91000000 (Except.ok "PENDING") storedState).1.store
        = none ∧
     (checkPendingPayment 91000000 (Except.ok "PENDING") storedState).2 = [] ∧
     (checkPendingPayment 91000000 (Except.ok "PENDING") storedState).1.paymentStatus
        = PaymentStatus.idle) :=
  ⟨by decide,
   c5_stale_discarded sampleRecord 91000000 (Except.ok "PENDING") storedState
     rfl (by decide) rfl⟩

/-! ## C7 -/

/-- C7: under the single-timer invariant, `startPaymentVerification` cancels
the previously registered interval before registering the new one, so
exactly the fresh interval is active afterwards — no two polling timers run
concurrently. -/
theorem c7_timer_exclusive (s : CompState) (h : timerInvariant s) :
    (startPaymentVerification s).activeTimers = [s.nextTimerId] ∧
    timerInvariant (startPaymentVerification s) := by
  unfold timerInvariant at h ⊢
  unfold startPaymentVerification
  cases hr : s.timerRef <;> rw [hr] at h <;> simp [h]

/-- C7, witness: restarting verification on a component that already owns a
timer leaves exactly the fresh timer active. -/
theorem c7_timer_exclusive_witness :
    timerInvariant busyState ∧
    ((startPaymentVerification busyState).activeTimers = [busyState.nextTimerId] ∧
     timerInvariant (startPaymentVerification busyState)) :=
  ⟨by decide, c7_timer_exclusive busyState (by decide)⟩

/-! ## C8 -/

/-- C8: the unmount cleanup cancels the active polling timer but leaves the
durable store (and the React record) unchanged, so reconciliation can
resume on return. -/
theorem c8_unmount_keeps_store (s : CompState) (h : timerInvariant s) :
    (unmountCleanup s).store = s.store ∧
    (unmountCleanup s).paymentState = s.paymentState ∧
    (unmountCleanup s).activeTimers = [] := by
  unfold timerInvariant at h
  unfold unmountCleanup
  cases hr : s.timerRef <;> rw [hr] at h <;> simp [h]

/-- C8, witness on a component mid-reconciliation: the persisted record is
still there after unmount, while the timer is gone. -/
theorem c8_unmount_keeps_store_witness :
    timerInvariant busyState ∧
    ((unmountCleanup busyState).store = busyState.store ∧
     (unmountCleanup busyState).paymentState = busyState.paymentState ∧
     (unmountCleanup busyState).activeTimers = []) :=
  ⟨by decide, c8_unmount_keeps_store busyState (by decide)⟩

/-! ## C9 -/

/-- C9: a stored record that fails to parse lands in the `catch` branch of
the mount check: the invalid record is removed, no status query is issued,
and the payment status stays `idle`. -/
theorem c9_invalid_record_discarded (now : Int) (resp : Except String String)
    (s : CompState)
    (h1 : s.store = some StoredValue.malformed)
    (h2 : s.paymentStatus = PaymentStatus.idle) :
    (checkPendingPayment now resp s).1.store = none ∧
    (checkPendingPayment now resp s).2 = [] ∧
    (checkPendingPayment now resp s).1.paymentStatus = PaymentStatus.idle := by
  unfold checkPendingPayment
  rw [h1]
  simp [h2]

/-! ## C6 -/

/-- C6: on mount with a non-expired persisted record, the check publishes
the record and moves the status straight to `verifying`, then issues the
backend status query keyed by the stored `paymentId` — the query key list is
exactly `[p.paymentId]`, and the model's query key is the numeric
`paymentId` alone (mirroring `paymentsAPI.getPaymentStatus`), so the stored
`paymentSessionId` string cannot enter any status query. -/
theorem c6_resume_queries_paymentId (p : PendingPaymentState) (now : Int)
    (resp : Except String String) (s : CompState)
    (h1 : s.store = some (StoredValue.valid p))
    (h2 : ¬ now - p.timestamp > STALE_LIMIT_MS) :
    (resumePending p s).paymentStatus = PaymentStatus.verifying ∧
    checkPendingPayment now resp s =
      ((verifyPaymentStatus p.paymentId resp (resumePending p s)).1,
       (verifyPaymentStatus p.paymentId resp (resumePending p s)).2.2) ∧
    (checkPendingPayment now resp s).2 = [p.paymentId] := by
  refine ⟨rfl, ?_, ?_⟩ <;>
    · unfold checkPendingPayment
      rw [h1]
      simp [if_neg h2, verifyPaymentStatus_queries]

/-- C6, witness at a one-second-old record. -/
theorem c6_resume_queries_paymentId_witness :
    ¬ (2000 : Int) - sampleRecord.timestamp > STALE_LIMIT_MS ∧
    ((resumePending sampleRecord storedState).paymentStatus =
        PaymentStatus.verifying ∧
     checkPendingPayment 2000 (Except.ok "COMPLETED") storedState =
       ((verifyPaymentStatus sampleRecord.paymentId (Except.ok "COMPLETED")
           (resumePending sampleRecord storedState)).1,
        (verifyPaymentStatus sampleRecord.paymentId (Except.ok "COMPLETED")
           (resumePending sampleRecord storedState)).2.2) ∧
     (checkPendingPayment 2000 (Except.ok "COMPLETED") storedState).2 =
       [sampleRecord.paymentId]) :=
  ⟨by decide,
   c6_resume_queries_paymentId sampleRecord 2000 (Except.ok "COMPLETED")
     storedState rfl (by decide)⟩

/-! ## C10 -/

/-- C10: every post-validation submit error — booking creation failure,
order creation failure, a missing `payment_session_id`, or a
checkout-launch failure — sets the payment status to `failed` and runs
`clearPaymentState`, which empties the store (whatever record it held,
including a pre-existing one) and cancels any active polling timer. -/
theorem c10_submit_errors_clear_state (bt : BookingType) (now : Int)
    (s : CompState) (h : timerInvariant s) :
    failedAndCleared (handleSubmitCore bt SubmitOutcome.bookingFailed now s) ∧
    failedAndCleared (handleSubmitCore bt SubmitOutcome.orderFailed now s) ∧
    (∀ bid : Int,
      failedAndCleared
        (handleSubmitCore bt (SubmitOutcome.orderMissingSession bid) now s)) ∧
    (∀ (bid pid : Int) (sess msg : String),
      failedAndCleared
        (handleSubmitCore bt (SubmitOutcome.checkoutFailed bid pid sess msg)
          now s)) := by
  unfold timerInvariant at h
  unfold handleSubmitCore clearPaymentState failedAndCleared
  cases hr : s.timerRef <;> rw [hr] at h <;> simp [h]

/-- C10, witness: a booking failure while the store still holds an earlier
unresolved record and a timer is live clears everything. -/
theorem c10_submit_errors_clear_state_witness :
    timerInvariant busyState ∧
    failedAndCleared
      (handleSubmitCore BookingType.appointment SubmitOutcome.bookingFailed
        5000 busyState) :=
  ⟨by decide,
   (c10_submit_errors_clear_state BookingType.appointment 5000 busyState
      (by decide)).1⟩

/-! ## C9 witness -/

/-- C9, witness. -/
theorem c9_invalid_record_discarded_witness :
    malformedState.store = some StoredValue.malformed ∧
    ((checkPendingPayment 2000 (Except.ok "PENDING") malformedState).1.store
        = none ∧
     (checkPendingPayment 2000 (Except.ok "PENDING") malformedState).2 = [] ∧
     (checkPendingPayment 2000 (Except.ok "PENDING") malformedState).1.paymentStatus
        = PaymentStatus.idle) :=
  ⟨rfl, c9_invalid_record_discarded 2000 (Except.ok "PENDING") malformedState
          rfl rfl⟩

end AnaghaPayments
